import Mathlib

/-
Verification development for the conversational messaging core of a
multi-tenant WhatsApp AI agent platform (FastAPI/SQLAlchemy backend).

The Python services are shallowly embedded as pure Lean functions:

* database tables become lists of row structures, and SQL `UPDATE`/`INSERT`
  statements become list transformations;
* `datetime` values become `Int` numbers of minutes on an absolute timeline
  (the unit is irrelevant to every property proved here, except where a
  constant such as "24 hours" appears, in which case it is written in
  minutes and noted at the definition);
* network and AI side effects (LLM responses, WhatsApp sends, Google
  Calendar calls) become explicit parameters that carry the outcome the
  external call would have produced;
* Python exceptions raised by those external calls become `Option`/flag
  parameters on the functions that catch them.

Each embedded definition names the Python function it mirrors.
-/

/-! ## Core enums (backend/core/enums.py) -/

inductive FollowupStatus where
  | pending
  | evaluating
  | sent
  | skipped
  | cancelled
deriving Repr, DecidableEq

inductive ReminderStatus where
  | pending
  | processing
  | sent
  | failed
  | cancelled
deriving Repr, DecidableEq

inductive ReminderContentType where
  | template
  | ai
  | metaTemplate
deriving Repr, DecidableEq

inductive AppointmentStatus where
  | scheduled
  | cancelled
  | completed
deriving Repr, DecidableEq

inductive SummaryWebhookStatus where
  | pending
  | sent
  | failed
deriving Repr, DecidableEq

/-! ## Rows of the data model (backend/models) -/

/-- `Conversation` row (backend/models/conversation.py).  The
`last_customer_message_at` column is added by `run_migrations` in
backend/core/database.py and accessed as a plain attribute by the
services. -/
structure Conversation where
  id : Int
  agentId : Int
  userId : Int
  isPaused : Bool
  optedOut : Bool
  lastCustomerMessageAt : Option Int
deriving Repr, DecidableEq

/-- `Message` row (backend/models/message.py), restricted to the columns the
claims touch. -/
structure MessageRow where
  conversationId : Int
  role : String
  content : String
  messageType : String
deriving Repr, DecidableEq

/-- `PendingMessage` (backend/services/message_buffer.py).  The
`image_base64`/`media_type` payload fields are irrelevant to the proved
properties and elided. -/
structure PendingMessage where
  text : String
  msgType : String
deriving Repr, DecidableEq

/-- `ScheduledFollowup` row (backend/models/scheduled_followup.py). -/
structure ScheduledFollowup where
  id : Int
  conversationId : Int
  agentId : Int
  userId : Int
  followupNumber : Int
  scheduledFor : Int
  status : FollowupStatus
  content : Option String
  aiReason : Option String
  sentVia : Option String
  templateName : Option String
  sentAt : Option Int
  createdAt : Int
deriving Repr, DecidableEq

/-! ## Python string primitives -/

/-- The opening and closing curly-brace characters and the backquote, used
by the tolerant JSON extraction. -/
def lbrace : Char := Char.ofNat 123

def rbrace : Char := Char.ofNat 125

def backquote : Char := Char.ofNat 96

/-- Python string operations act on code points; they are embedded as
structural functions on `List Char` (a Lean `String` and its `.data` list
are in code-point bijection).  `str.strip()` with no argument removes
leading whitespace. -/
def py_lstrip : List Char -> List Char
  | [] => []
  | c :: cs => if c.isWhitespace then py_lstrip cs else c :: cs

/-- `str.strip()`: whitespace removed from both ends. -/
def py_strip (s : List Char) : List Char :=
  py_lstrip (py_lstrip s.reverse).reverse

/-- `s[:n]` on a string, by code points. -/
def py_slice (s : String) (n : Nat) : String := String.mk (s.data.take n)

/-- `text.split("```")` specialised to the three-character fence separator:
scan left to right, cutting at each non-overlapping occurrence. -/
def py_split_fence_go (acc : List Char) : List Char -> List (List Char)
  | [] => [acc.reverse]
  | [c] => [(c :: acc).reverse]
  | [c1, c2] => [(c2 :: c1 :: acc).reverse]
  | c1 :: c2 :: c3 :: rest =>
    if c1 == backquote && c2 == backquote && c3 == backquote then
      acc.reverse :: py_split_fence_go [] rest
    else
      py_split_fence_go (c1 :: acc) (c2 :: c3 :: rest)

def py_split_fence (s : List Char) : List (List Char) :=
  py_split_fence_go [] s

/-- `str.find(ch)`: index of the first occurrence, `-1` when absent. -/
def py_find_char (s : List Char) (c : Char) : Int :=
  match s.findIdx? (fun x => x == c) with
  | some i => Int.ofNat i
  | none => -1

/-- `str.rfind(ch)`: index of the last occurrence, `-1` when absent. -/
def py_rfind_char (s : List Char) (c : Char) : Int :=
  match s.reverse.findIdx? (fun x => x == c) with
  | some i => Int.ofNat (s.length - 1 - i)
  | none => -1

/-! ## Orchestrator (backend/services/message_processing.py) and follow-up
cancellation (backend/services/followups.py) -/

/-- `cancel_pending_followups` (backend/services/followups.py, lines
501-507): a bulk `UPDATE` that flips every `pending`/`evaluating` follow-up
of the conversation to `cancelled`. -/
def cancel_pending_followups (followups : List ScheduledFollowup)
    (conversationId : Int) : List ScheduledFollowup :=
  followups.map fun fu =>
    if fu.conversationId = conversationId ∧
        fu.status ∈ [FollowupStatus.pending, FollowupStatus.evaluating] then
      { fu with status := FollowupStatus.cancelled }
    else fu

/-- Result state of one run of `process_batched_messages`. -/
structure ProcessResult where
  conv : Conversation
  followups : List ScheduledFollowup
  messages : List MessageRow
  llmInvoked : Bool
  outboundSent : Bool
deriving Repr, DecidableEq

/-- `process_batched_messages` (backend/services/message_processing.py,
lines 81-249), embedded from the point where agent, user and conversation
have been resolved (the function returns early when the agent id is
unknown, before touching any row).

* `pending` is the drained batch; each element is persisted as a `user`
  row.  The inline image-description step only rewrites `msg.text` before
  saving, so the content is taken as given.
* `llmResponse` is the text the LLM tool loop would return; the embedding
  flags `llmInvoked` on the branch where `ai.get_response` is awaited.
* `outboundSent` records whether the final text reply was handed to the
  provider (`send_message`); tool-driven media sends are orthogonal to the
  claims and elided. -/
def process_batched_messages (conv : Conversation)
    (followups : List ScheduledFollowup) (msgs : List MessageRow)
    (pending : List PendingMessage) (now : Int)
    (llmResponse : String) : ProcessResult :=
  let conv' := { conv with optedOut := false, lastCustomerMessageAt := some now }
  let followups' := cancel_pending_followups followups conv'.id
  let userRows := pending.map fun p =>
    { conversationId := conv'.id, role := "user", content := p.text,
      messageType := p.msgType : MessageRow }
  if conv'.isPaused then
    { conv := conv', followups := followups', messages := msgs ++ userRows,
      llmInvoked := false, outboundSent := false }
  else
    let msgs' := msgs ++ userRows
    if !(py_strip llmResponse.data).isEmpty then
      { conv := conv', followups := followups',
        messages := msgs' ++ [{ conversationId := conv'.id, role := "assistant",
                                content := llmResponse, messageType := "text" }],
        llmInvoked := true, outboundSent := true }
    else
      { conv := conv', followups := followups', messages := msgs',
        llmInvoked := true, outboundSent := false }

/-! ## Follow-up scan eligibility (backend/services/followups.py, `_scan_agent`) -/

/-- Per-conversation aggregates computed by the subqueries of `_scan_agent`
(backend/services/followups.py, lines 88-157). -/
structure ConversationStats where
  hasPendingFollowup : Bool
  sentCount : Int
  attemptCount : Int
  lastMsgRole : Option String
  msgCount : Int
  hasPendingReminderForUser : Bool
  lastSentAt : Option Int
  todaySentCount : Int
deriving Repr, DecidableEq

/-- `datetime.min` used by `func.coalesce(last_sent.c.last_sent_at,
datetime.min)`: year 1 on the absolute minute timeline (minutes before the
Unix epoch). -/
def PYTHON_DATETIME_MIN : Int := -1035593280

/-- Filter of the main eligibility query of `_scan_agent`
(backend/services/followups.py, lines 160-193).  A conversation appears in
the result set, and hence gets a follow-up scheduled, exactly when this
predicate holds. -/
def scan_eligible (conv : Conversation) (st : ConversationStats)
    (agentId : Int) (cutoff inactivityThreshold cooldownThreshold : Int)
    (minMessages maxFollowups maxAttempts maxPerDay : Int) : Bool :=
  (conv.agentId == agentId) &&
  (conv.optedOut == false) &&
  (conv.isPaused == false) &&
  (match conv.lastCustomerMessageAt with
   | none => false
   | some t => cutoff < t && t < inactivityThreshold) &&
  (!st.hasPendingFollowup) &&
  (st.lastMsgRole == some "assistant") &&
  (minMessages ≤ st.msgCount) &&
  (st.sentCount < maxFollowups) &&
  (st.attemptCount < maxAttempts) &&
  (!st.hasPendingReminderForUser) &&
  (st.lastSentAt.getD PYTHON_DATETIME_MIN < cooldownThreshold) &&
  (st.todaySentCount < maxPerDay)

/-! ## Conversation summaries (backend/services/summaries.py,
backend/models/conversation_summary.py) -/

/-- `ConversationSummary` row (backend/models/conversation_summary.py),
restricted to the columns the claims touch.  The table carries
`UniqueConstraint("conversation_id", "last_message_at")`. -/
structure ConversationSummaryRow where
  conversationId : Int
  agentId : Int
  userId : Int
  summaryText : String
  messageCount : Int
  lastMessageAt : Option Int
  webhookStatus : SummaryWebhookStatus
  webhookAttempts : Int
  nextRetryAt : Option Int
deriving Repr, DecidableEq

/-- SQL semantics of the unique index `uq_summary_per_message_window` on
`(conversation_id, last_message_at)`: an insert conflicts exactly when a
row with the same conversation and the same non-NULL timestamp already
exists (PostgreSQL treats NULLs in a unique index as pairwise distinct). -/
def summary_key_conflict (rows : List ConversationSummaryRow)
    (conversationId : Int) (lastMessageAt : Option Int) : Bool :=
  match lastMessageAt with
  | none => false
  | some t => rows.any fun r =>
      r.conversationId == conversationId && r.lastMessageAt == some t

/-- Invariant (I1): for every conversation and every concrete (non-NULL)
`last_message_at` timestamp, at most one `ConversationSummary` row exists. -/
def summary_unique (rows : List ConversationSummaryRow) : Prop :=
  rows.Pairwise fun a b =>
    a.conversationId = b.conversationId → a.lastMessageAt = b.lastMessageAt →
      a.lastMessageAt = none

instance (rows : List ConversationSummaryRow) : Decidable (summary_unique rows) := by
  unfold summary_unique
  infer_instance

/-- `create_and_send_summary` (backend/services/summaries.py, lines
177-238), up to and including the `db.commit()` / `IntegrityError`
handling; the webhook attempt that follows does not touch the summary
table's key columns.

* `rows` is the summary table as this session sees it at the duplicate
  pre-check; `concurrent` are rows a peer instance commits between the
  pre-check and our commit (the race the unique constraint guards), so the
  table at commit time is `rows ++ concurrent`.
* `lastUserMsgTime` is the `max(created_at)` of the conversation's user
  messages; `conversationText` the rendered history (empty → bail);
  `aiSummary` is the LLM result (`none` models a raised generation error,
  caught and turned into `return None`).

Returns the resulting table and the inserted row (`none` on every bail
path, in particular on a unique-constraint violation, which rolls back and
returns without raising). -/
def create_and_send_summary (rows concurrent : List ConversationSummaryRow)
    (conversationId agentId userId : Int) (lastUserMsgTime : Option Int)
    (conversationText : String) (aiSummary : Option String)
    (messageCount : Int) (now retryDelay : Int) :
    List ConversationSummaryRow × Option ConversationSummaryRow :=
  let committed := rows ++ concurrent
  if lastUserMsgTime.isSome &&
      summary_key_conflict rows conversationId lastUserMsgTime then
    (committed, none)
  else if conversationText == "" then
    (committed, none)
  else
    match aiSummary with
    | none => (committed, none)
    | some summaryText =>
      let row : ConversationSummaryRow :=
        { conversationId := conversationId, agentId := agentId,
          userId := userId, summaryText := summaryText,
          messageCount := messageCount, lastMessageAt := lastUserMsgTime,
          webhookStatus := SummaryWebhookStatus.pending,
          webhookAttempts := 0, nextRetryAt := some (now + retryDelay) }
      if summary_key_conflict committed conversationId lastUserMsgTime then
        (committed, none)
      else
        (committed ++ [row], some row)

/-! ## Message batcher (backend/services/message_buffer.py,
backend/api/routers/webhook.py) -/

/-- Outcome of one `add_message` call on a single `(agent, user)` buffer. -/
structure BufferStepResult where
  buffer : List PendingMessage
  flushed : Option (List PendingMessage)
  timerStarted : Bool
deriving Repr, DecidableEq

/-- `_process_redis_buffer` (backend/services/message_buffer.py, lines
182-217).  `lockFree` is the outcome of `SET msg_lock:{agent}:{phone} NX`:
when another instance holds the drain gate the call is a no-op.  Otherwise
the whole list is read, the key deleted, and the callback invoked once with
the drained batch. -/
def process_redis_buffer (lockFree : Bool) (buffer : List PendingMessage) :
    List PendingMessage × Option (List PendingMessage) :=
  if !lockFree then (buffer, none)
  else if buffer.isEmpty then (buffer, none)
  else ([], some buffer)

/-- `_add_message_redis` (backend/services/message_buffer.py, lines
120-167): `RPUSH` the message, read `LLEN`, cancel the running debounce
task, then either drain immediately (count reached `max_messages`) or start
a fresh debounce timer. -/
def add_message (buffer : List PendingMessage) (msg : PendingMessage)
    (maxMessages : Nat) (lockFree : Bool) : BufferStepResult :=
  let buffer' := buffer ++ [msg]
  let count := buffer'.length
  if maxMessages ≤ count then
    let drained := process_redis_buffer lockFree buffer'
    { buffer := drained.fst, flushed := drained.snd, timerStarted := false }
  else
    { buffer := buffer', flushed := none, timerStarted := true }

/-- Batching dispatch of `handle_incoming_message`
(backend/api/routers/webhook.py, lines 84-101): `debounce_seconds == 0`
processes the single message synchronously, bypassing the buffer;
otherwise the message goes through `message_buffer.add_message`. -/
def handle_incoming (debounceSeconds : Nat) (maxMessages : Nat)
    (buffer : List PendingMessage) (msg : PendingMessage)
    (lockFree : Bool) : BufferStepResult :=
  if debounceSeconds == 0 then
    { buffer := buffer, flushed := some [msg], timerStarted := false }
  else
    add_message buffer msg maxMessages lockFree

/-! ## Reminders (backend/services/reminders.py) -/

/-- One entry of `calendar_config.reminders.rules`.  `minutesBefore` models
`rule.get("minutes_before", 60)`: `none` means the key is absent and the
default 60 applies.  `contentType` and `template` likewise carry their
`rule.get` defaults at the use site. -/
structure ReminderRule where
  minutesBefore : Option Int
  contentType : ReminderContentType
  template : Option String
  aiPrompt : Option String
deriving Repr, DecidableEq

/-- `DEFAULT_TEMPLATE` (backend/services/reminders.py, lines 24-26). -/
def DEFAULT_TEMPLATE : String :=
  "שלום \x7bcustomer_name\x7d,\nתזכורת לפגישה שלך \"\x7btitle\x7d\" ב-\x7bdate\x7d בשעה \x7btime\x7d.\nנתראה!"

/-- `ScheduledReminder` row (backend/models/scheduled_reminder.py),
restricted to the columns the claims touch. -/
structure ScheduledReminder where
  appointmentId : Int
  agentId : Int
  userId : Int
  scheduledFor : Int
  status : ReminderStatus
  contentType : ReminderContentType
  template : String
  aiPrompt : Option String
  ruleIndex : Int
deriving Repr, DecidableEq

/-- The `ScheduledReminder(...)` constructor call of
`create_reminders_for_appointment` (backend/services/reminders.py, lines
71-81) for rule number `idx`. -/
def reminder_row (idx : Nat) (rule : ReminderRule)
    (appointmentId agentId userId : Int) (startTime : Int) :
    ScheduledReminder :=
  { appointmentId := appointmentId, agentId := agentId, userId := userId,
    scheduledFor := startTime - rule.minutesBefore.getD 60,
    status := ReminderStatus.pending,
    contentType := rule.contentType,
    template := rule.template.getD DEFAULT_TEMPLATE,
    aiPrompt := rule.aiPrompt,
    ruleIndex := Int.ofNat idx }

/-- Loop body of `create_reminders_for_appointment`
(backend/services/reminders.py, lines 59-84): `for idx, rule in
enumerate(config["rules"])`.  Times are absolute, so the
aware-datetime subtraction, the `<= now` comparison and the final
`to_utc` conversion (which maps an aware local time to the same absolute
instant rendered as naive UTC) all act on the same `Int` value. -/
def create_reminders_loop (idx : Nat) (rules : List ReminderRule)
    (appointmentId agentId userId : Int) (startTime : Int)
    (now : Int) : List ScheduledReminder :=
  match rules with
  | [] => []
  | rule :: rest =>
    let scheduledFor := startTime - rule.minutesBefore.getD 60
    if scheduledFor ≤ now then
      create_reminders_loop (idx + 1) rest appointmentId agentId userId startTime now
    else
      reminder_row idx rule appointmentId agentId userId startTime ::
      create_reminders_loop (idx + 1) rest appointmentId agentId userId startTime now

/-- `create_reminders_for_appointment` (backend/services/reminders.py,
lines 40-90).  `enabled` and `rules` come from
`get_reminder_config(agent)`; when reminders are disabled or the rule list
is empty, no row is created. -/
def create_reminders_for_appointment (enabled : Bool)
    (rules : List ReminderRule) (appointmentId agentId userId : Int)
    (startTime : Int) (now : Int) : List ScheduledReminder :=
  if !enabled || rules.isEmpty then []
  else create_reminders_loop 0 rules appointmentId agentId userId startTime now

/-! ## Appointments (backend/services/appointments.py,
backend/services/tools.py) -/

/-- `Appointment` row (backend/models/appointment.py). -/
structure Appointment where
  id : Int
  agentId : Int
  userId : Int
  googleEventId : Option String
  startTime : Int
  endTime : Int
  title : String
  description : String
  status : AppointmentStatus
deriving Repr, DecidableEq

/-- Observable steps of `book_appointment`, in execution order. -/
inductive BookStep where
  | externalCalendarEvent
  | localInsert
  | webhookFired
  | remindersCreated
deriving Repr, DecidableEq

/-- Result of `book_appointment`: the created appointment (if any), the
appointment table afterwards, the reminder rows materialized, and the trace
of side-effect steps in the order the code performs them. -/
structure BookOutcome where
  appointment : Option Appointment
  appts : List Appointment
  reminders : List ScheduledReminder
  trace : List BookStep
deriving Repr, DecidableEq

/-- `book_appointment` (backend/services/appointments.py, lines 229-300).

* The conflict query (lines 244-249) looks for a `scheduled` appointment of
  the same agent with `start_time < end_time' ∧ end_time > start_time'`,
  i.e. an overlap of the half-open intervals `[start, end)`.
* `accessTokenOk` is whether `_get_google_token` produced a token; only
  then is the external-calendar event attempted.  `calendarEventId` is what
  `calendar.create_event` returns (`none` on failure — it catches its own
  exceptions, so failure does not abort the booking).
* `insertOk` models the `db.commit()` of the local insert; on failure the
  code rolls back and returns `None`.
* After the insert the code first fires the `appointment.created` webhook
  (line 293) and then materializes reminders (line 297). -/
def book_appointment (appts : List Appointment) (agentId userId : Int)
    (startTime durationMinutes : Int) (title description : String)
    (newId : Int) (accessTokenOk : Bool) (calendarEventId : Option String)
    (insertOk : Bool) (remindersEnabled : Bool) (rules : List ReminderRule)
    (now : Int) : BookOutcome :=
  let endTime := startTime + durationMinutes
  let conflict := appts.any fun a =>
    a.agentId == agentId && a.status == AppointmentStatus.scheduled &&
    a.startTime < endTime && startTime < a.endTime
  if conflict then
    { appointment := none, appts := appts, reminders := [], trace := [] }
  else
    let googleEventId := if accessTokenOk then calendarEventId else none
    let trace₀ := if accessTokenOk then [BookStep.externalCalendarEvent] else []
    if !insertOk then
      { appointment := none, appts := appts, reminders := [], trace := trace₀ }
    else
      let appointment : Appointment :=
        { id := newId, agentId := agentId, userId := userId,
          googleEventId := googleEventId, startTime := startTime,
          endTime := endTime, title := title, description := description,
          status := AppointmentStatus.scheduled }
      let reminders := create_reminders_for_appointment remindersEnabled
        rules newId agentId userId startTime now
      { appointment := some appointment,
        appts := appts ++ [appointment],
        reminders := reminders,
        trace := trace₀ ++ [BookStep.localInsert, BookStep.webhookFired,
                            BookStep.remindersCreated] }

/-- Result of the `book_appointment` tool handler. -/
structure ToolBookResult where
  reply : String
  appts : List Appointment
  booked : Option Appointment
deriving Repr, DecidableEq

/-- `_handle_book_appointment` (backend/services/tools.py, lines 121-160).

* `calendarConnected` is `config.get("google_tokens")` being truthy.
* `dtStr` is `data.get("datetime", "")` and `parsedDt` the result of
  `_parse_datetime(dt_str, tz)` (text-format parsing is external to the
  claims; an aware datetime compares by its absolute instant).
* `durationMinutes` is `data.get("duration_minutes", 30)` with the default
  already applied.
* The success reply renders the local date and time of `dt`; the
  `strftime` rendering is elided from the reply string as no claim
  touches it. -/
def handle_book_appointment (calendarConnected : Bool) (dtStr : String)
    (parsedDt : Option Int) (durationMinutes : Int)
    (title description : String) (now : Int) (agentId userId : Int)
    (appts : List Appointment) (newId : Int) (accessTokenOk : Bool)
    (calendarEventId : Option String) (insertOk : Bool)
    (remindersEnabled : Bool) (rules : List ReminderRule) : ToolBookResult :=
  if !calendarConnected then
    { reply := "יומן לא מחובר", appts := appts, booked := none }
  else
    match parsedDt with
    | none =>
      if dtStr != "" then
        { reply := "פורמט תאריך לא תקין: " ++ py_slice dtStr 30,
          appts := appts, booked := none }
      else
        { reply := "חסר תאריך ושעה", appts := appts, booked := none }
    | some dt =>
      if dt ≤ now then
        { reply := "לא ניתן לקבוע פגישה בעבר", appts := appts, booked := none }
      else if durationMinutes < 5 || 480 < durationMinutes then
        { reply := "משך פגישה לא תקין (מינימום 5 דקות, מקסימום 8 שעות)",
          appts := appts, booked := none }
      else
        let outcome := book_appointment appts agentId userId dt
          durationMinutes title description newId accessTokenOk
          calendarEventId insertOk remindersEnabled rules now
        match outcome.appointment with
        | some apt =>
          { reply := "פגישה נקבעה: " ++ title, appts := outcome.appts,
            booked := some apt }
        | none =>
          { reply := "לא הצלחתי לקבוע פגישה - ייתכן שהזמן תפוס",
            appts := outcome.appts, booked := none }

/-! ## Follow-up AI decision parsing
(backend/services/followup_evaluator.py, `_parse_ai_decision`) -/

/-- JSON values as `json.loads` produces them.  Numbers are modelled as
integers; no claim involves fractional values. -/
inductive PyJson where
  | null
  | boolean (b : Bool)
  | num (n : Int)
  | str (s : String)
  | arr (elems : List PyJson)
  | obj (fields : List (String × PyJson))
deriving Repr

/-- Python truthiness of a JSON value (`if not decision.get("send")`). -/
def pyTruthy : PyJson → Bool
  | PyJson.null => false
  | PyJson.boolean b => b
  | PyJson.num n => n != 0
  | PyJson.str s => s != ""
  | PyJson.arr elems => !elems.isEmpty
  | PyJson.obj fields => !fields.isEmpty

/-- `dict.get(key)`: `none` when the key is absent. -/
def pyGet (fields : List (String × PyJson)) (key : String) : Option PyJson :=
  (fields.find? fun kv => kv.fst == key).map Prod.snd

/-- Truthiness of `decision.get(key)` (absent key → `None` → falsy). -/
def pyGetTruthy (fields : List (String × PyJson)) (key : String) : Bool :=
  match pyGet fields key with
  | none => false
  | some v => pyTruthy v

/-- String value of `decision.get(key, default)`.  In the source a
non-string value would raise on the subsequent `[:500]` slice /
concatenation and be absorbed by the caller's exception handler (modelled
separately by the `raises` parameter of `run_followup_task`); here a
non-string value yields the default. -/
def pyGetStr (fields : List (String × PyJson)) (key : String)
    (default : String) : String :=
  match pyGet fields key with
  | some (PyJson.str s) => s
  | _ => default

/-- The `candidate.startswith("json")` strip inside the fence loop of
`_parse_ai_decision` (backend/services/followup_evaluator.py, lines
246-248). -/
def strip_json_tag (candidate : List Char) : List Char :=
  if ['j', 's', 'o', 'n'].isPrefixOf candidate then py_strip (candidate.drop 4)
  else candidate

/-- Fenced-code handling of `_parse_ai_decision` (lines 243-251): when the
response contains the fence separator (equivalently, the split has at
least two parts), the first fence-delimited part that (after stripping and
the optional `json` tag) starts with an opening brace replaces the text. -/
def strip_code_fence (text : List Char) : List Char :=
  let parts := py_split_fence text
  if 2 <= parts.length then
    match parts.find? (fun part =>
        [lbrace].isPrefixOf (strip_json_tag (py_strip part))) with
    | some part => strip_json_tag (py_strip part)
    | none => text
  else text

/-- Outermost-braces extraction of `_parse_ai_decision` (lines 253-257):
when the text does not already start with an opening brace, slice from the
first opening brace to the last closing brace inclusive
(`text[start:end]`), provided that span is non-empty. -/
def extract_braces (text : List Char) : List Char :=
  if [lbrace].isPrefixOf text then text
  else
    let start := py_find_char text lbrace
    let stop := py_rfind_char text rbrace + 1
    if start != -1 && start < stop then
      (text.drop start.toNat).take (stop - start).toNat
    else text

/-- The text-normalisation pipeline of `_parse_ai_decision`: strip
whitespace, strip code fences, extract the outermost braces. -/
def munge_ai_response (response : String) : List Char :=
  extract_braces (strip_code_fence (py_strip response.data))

/-- `_parse_ai_decision` (backend/services/followup_evaluator.py, lines
239-265).  `loads` stands for `json.loads`: `some` a parsed value, `none` a
raised `JSONDecodeError`/`ValueError`.  The result is the decision dict. -/
def parse_ai_decision (loads : List Char -> Option PyJson)
    (response : String) : List (String × PyJson) :=
  let text := munge_ai_response response
  match loads text with
  | some (PyJson.obj fields) => fields
  | some _ =>
    [("send", PyJson.boolean false),
     ("reason", PyJson.str "AI returned non-object JSON")]
  | none =>
    [("send", PyJson.boolean false),
     ("reason", PyJson.str (String.mk
       ("failed to parse AI response: ".data ++ text.take 80)))]

/-! ## Follow-up processing (backend/services/followups.py,
`process_pending_followups` / `_process_single`) -/

/-- `_needs_meta_template` (backend/services/followups.py, lines 399-406):
Meta provider and the last customer message more than 24 hours old (or
never).  `(now - t) / 3600 > 24` over the reals is `now - t > 1440` on the
minute timeline. -/
def needs_meta_template (provider : String) (conv : Conversation)
    (now : Int) : Bool :=
  if provider != "meta" then false
  else
    match conv.lastCustomerMessageAt with
    | none => true
    | some t => 1440 < now - t

/-- `_skip` (backend/services/followups.py, lines 409-411): terminal
`skipped` status with the reason truncated to 500 characters. -/
def skip_followup (fu : ScheduledFollowup) (reason : String) :
    ScheduledFollowup :=
  { fu with status := FollowupStatus.skipped,
            aiReason := some (py_slice reason 500) }

/-- External context of one `_process_single` call: what the row's
conversation/agent/user queries return, and the outcomes of the AI
evaluation and the provider send. -/
structure FollowupEnv where
  conv : Option Conversation
  agentPresent : Bool
  userPresent : Bool
  agentIsActive : Bool
  agentProvider : String
  metaTemplatesConfigured : Bool
  decision : List (String × PyJson)
  sendOk : Bool
  sendErr : Option String
  now : Int

/-- The customer-re-engaged re-check of `_process_single` (line 370):
`conv.last_customer_message_at and conv.last_customer_message_at >
fu.created_at`. -/
def customer_responded_since (fu : ScheduledFollowup)
    (conv : Conversation) : Bool :=
  match conv.lastCustomerMessageAt with
  | some t => fu.createdAt < t
  | none => false

/-- `_process_single` (backend/services/followups.py, lines 354-397).
Returns the updated row and whether a provider send was attempted.

* `env.decision` is what `followup_evaluator.evaluate` returns (that
  function catches its own exceptions, so it is total).
* `_send` and its two channel helpers are collapsed into the
  `(env.sendOk, env.sendErr)` outcome; their internals never touch the
  row. -/
def process_single (fu : ScheduledFollowup) (env : FollowupEnv) :
    ScheduledFollowup × Bool :=
  match env.conv with
  | none => (skip_followup fu "missing conversation, agent, or user", false)
  | some conv =>
    if !env.agentPresent || !env.userPresent then
      (skip_followup fu "missing conversation, agent, or user", false)
    else if conv.optedOut || conv.isPaused || !env.agentIsActive then
      ({ fu with status := FollowupStatus.cancelled }, false)
    else if customer_responded_since fu conv then
      ({ fu with status := FollowupStatus.cancelled }, false)
    else if needs_meta_template env.agentProvider conv env.now &&
        !env.metaTemplatesConfigured then
      (skip_followup fu "meta provider after 24h but no templates configured",
       false)
    else if !pyGetTruthy env.decision "send" then
      (skip_followup fu (pyGetStr env.decision "reason" "AI decided not to send"),
       false)
    else if env.sendOk then
      ({ fu with status := FollowupStatus.sent, sentAt := some env.now,
                 content := some (pyGetStr env.decision "content" "") }, true)
    else
      (skip_followup fu (env.sendErr.getD "send failed"), true)

/-- The `_run` task body of `process_pending_followups`
(backend/services/followups.py, lines 311-338), applied to one follow-up id
already flipped to `evaluating`.  `fu` is what the re-query by id returns;
`raises` models an exception escaping `_process_single` or its commit
(`str(e)`), which the handler converts to a `skipped` row with the
truncated error. -/
def run_followup_task (fu : Option ScheduledFollowup) (env : FollowupEnv)
    (raises : Option String) : Option ScheduledFollowup :=
  match fu with
  | none => none
  | some fu =>
    match raises with
    | some err =>
      some { fu with status := FollowupStatus.skipped,
                     aiReason := some ("error: " ++ py_slice err 200) }
    | none => some (process_single fu env).fst

/-- The guard conditions under which `_process_single` reaches the AI
evaluation step (none of the earlier bail branches fires). -/
def reaches_ai_decision (fu : ScheduledFollowup) (env : FollowupEnv) : Prop :=
  ∃ conv, env.conv = some conv ∧
    env.agentPresent = true ∧ env.userPresent = true ∧
    conv.optedOut = false ∧ conv.isPaused = false ∧
    env.agentIsActive = true ∧
    customer_responded_since fu conv = false ∧
    (needs_meta_template env.agentProvider conv env.now &&
      !env.metaTemplatesConfigured) = false

/-! ## Active-hours clamp (backend/services/followups.py,
`_clamp_to_active_hours`) -/

/-- Midnight of the local day containing the local time `local` (minutes):
the `local.replace(hour=.., minute=.., second=0, microsecond=0)` base.
`Int.fdiv` floors, matching calendar days for times before the epoch. -/
def local_day_base (localTime : Int) : Int := 1440 * (localTime.fdiv 1440)

/-- The `local_start` value of `_clamp_to_active_hours` (line 253): the
window start `startH:startM` on the local day of `localTime`. -/
def window_start (startH startM : Int) (localTime : Int) : Int :=
  local_day_base localTime + 60 * startH + startM

/-- The in-window test of `_clamp_to_active_hours` (lines 256-264): a
cross-midnight range (`local_end <= local_start`) contains the local times
at or past the start or before the end; a normal range is the half-open
interval `[local_start, local_end)`. -/
def in_active_window (startH startM endH endM : Int)
    (localTime : Int) : Bool :=
  let localStart := window_start startH startM localTime
  let localEnd := local_day_base localTime + 60 * endH + endM
  if localEnd ≤ localStart then
    localStart ≤ localTime || localTime < localEnd
  else
    localStart ≤ localTime && localTime < localEnd

/-- `_clamp_to_active_hours` (backend/services/followups.py, lines
235-276).  `off` is the UTC offset of the local timezone in minutes
(`from_utc` adds it, `to_utc` subtracts it; Asia/Jerusalem is +120 in
winter, +180 in DST — the code converts both directions inside one call,
so any fixed offset is faithful).  `startH:startM`-`endH:endM` is the
parsed `active_hours` window.  In-window times pass through; out-of-window
times move to the window start of the same local day when before it,
otherwise to the next day's start. -/
def clamp_to_active_hours (off : Int) (startH startM endH endM : Int)
    (dt : Int) : Int :=
  let localTime := dt + off
  let localStart := window_start startH startM localTime
  if in_active_window startH startM endH endM localTime then dt
  else
    let clamped := if localTime < localStart then localStart
                   else localStart + 1440
    clamped - off

/-! ## LLM key pool (backend/services/llm/key_manager.py) -/

/-- `_KeyState` (backend/services/llm/key_manager.py, lines 20-30). -/
structure KeyState where
  key : String
  availableAt : Int
  dead : Bool
deriving Repr, DecidableEq

/-- `_KeyState.is_available`: not dead and past its cooldown. -/
def key_is_available (now : Int) (ks : KeyState) : Bool :=
  !ks.dead && ks.availableAt ≤ now

/-- The round-robin scan of `get_key` (lines 83-87): starting from
`counter % n`, the first key (in cyclic order) that is available, together
with its index. -/
def round_robin_find (pool : List KeyState) (start : Nat) (now : Int) :
    Option (Nat × KeyState) :=
  (List.range pool.length).findSome? fun i =>
    match pool.get? ((start + i) % pool.length) with
    | some ks =>
      if key_is_available now ks then some ((start + i) % pool.length, ks)
      else none
    | none => none

/-- The cooldown fallback of `get_key` (lines 89-93): `min` over the
non-dead keys by `available_at`; Python's `min` keeps the first minimal
element. -/
def min_non_dead (pool : List KeyState) : Option KeyState :=
  match pool.filter (fun ks => !ks.dead) with
  | [] => none
  | k :: ks =>
    some (ks.foldl (fun acc x =>
      if x.availableAt < acc.availableAt then x else acc) k)

/-- `get_key` (backend/services/llm/key_manager.py, lines 65-97).
`overrideKey` is the agent-level `custom_api_keys` entry for the provider.
A raised `ValueError` is an `Except.error` carrying the message.  On a
round-robin hit the module counter becomes `idx + 1`; the fallback path
leaves it unchanged.  `time.time()` is the single `now` sample. -/
def get_key (provider : String) (pool : List KeyState) (counter : Nat)
    (now : Int) (overrideKey : Option String) :
    Except String (String × Nat) :=
  match overrideKey with
  | some k => Except.ok (k, counter)
  | none =>
    if pool.isEmpty then
      Except.error ("No API keys configured for " ++ provider)
    else
      match round_robin_find pool (counter % pool.length) now with
      | some (idx, ks) => Except.ok (ks.key, idx + 1)
      | none =>
        match min_non_dead pool with
        | some ks => Except.ok (ks.key, counter)
        | none => Except.error ("All API keys for " ++ provider ++ " are dead")

/-! ## Theorems -/

/-! ### Shared helper lemmas -/

theorem cancel_pending_followups_spec (followups : List ScheduledFollowup)
    (conversationId : Int) :
    cancel_pending_followups followups conversationId =
      followups.map fun fu =>
        if fu.conversationId = conversationId ∧
            (fu.status = FollowupStatus.pending ∨
             fu.status = FollowupStatus.evaluating) then
          { fu with status := FollowupStatus.cancelled }
        else fu := by
  unfold cancel_pending_followups
  simp only [List.mem_cons, List.mem_singleton, List.not_mem_nil, or_false]

/-- C3: for every inbound batch processed by the orchestrator, the
`opted_out` flag ends cleared, `last_customer_message_at` is set to the
current time, and exactly the conversation's `pending`/`evaluating`
follow-ups become `cancelled` while all other follow-up rows are
unchanged. -/
theorem C3_inbound_batch_conversation_update (conv : Conversation)
    (followups : List ScheduledFollowup) (msgs : List MessageRow)
    (pending : List PendingMessage) (now : Int) (llmResponse : String) :
    (process_batched_messages conv followups msgs pending now llmResponse).conv.optedOut = false ∧
    (process_batched_messages conv followups msgs pending now llmResponse).conv.lastCustomerMessageAt = some now ∧
    (process_batched_messages conv followups msgs pending now llmResponse).followups =
      followups.map fun fu =>
        if fu.conversationId = conv.id ∧
            (fu.status = FollowupStatus.pending ∨
             fu.status = FollowupStatus.evaluating) then
          { fu with status := FollowupStatus.cancelled }
        else fu := by
  rw [← cancel_pending_followups_spec]
  unfold process_batched_messages
  dsimp only
  split
  · exact ⟨rfl, rfl, rfl⟩
  · split
    · exact ⟨rfl, rfl, rfl⟩
    · exact ⟨rfl, rfl, rfl⟩

/-- C1 counterexample: an `opted_out` (but not paused) conversation does
trigger an LLM invocation and an outbound reply when an inbound batch is
processed — the orchestrator clears the flag first (auto opt-in,
message_processing.py lines 119-121) and then proceeds to `ai.get_response`
and `send_message`.  The claim's "no LLM invocation and no outbound
message" is therefore false for `opted_out` conversations. -/
theorem C1_counterexample :
    (⟨1, 1, 1, false, true, none⟩ : Conversation).optedOut = true ∧
    (process_batched_messages ⟨1, 1, 1, false, true, none⟩ [] []
        [⟨"היי", "text"⟩] 0 "שלום").llmInvoked = true ∧
    (process_batched_messages ⟨1, 1, 1, false, true, none⟩ [] []
        [⟨"היי", "text"⟩] 0 "שלום").outboundSent = true := by
  refine ⟨rfl, ?_, ?_⟩ <;> decide

/-- C1 amended: a `paused` conversation has its inbound messages persisted
as `user` rows with no LLM invocation and no outbound message; an
`opted_out` flag is instead cleared by inbound processing (which then
replies normally).  While either flag is set, the follow-up engine neither
schedules a follow-up (the `_scan_agent` eligibility query excludes the
conversation) nor sends one (`_process_single` re-checks the flags and
cancels the row without sending). -/
theorem C1_amended :
    (∀ (conv : Conversation) followups msgs pending now llmResponse,
      conv.isPaused = true →
      (process_batched_messages conv followups msgs pending now llmResponse).llmInvoked = false ∧
      (process_batched_messages conv followups msgs pending now llmResponse).outboundSent = false ∧
      (process_batched_messages conv followups msgs pending now llmResponse).messages =
        msgs ++ pending.map fun p =>
          { conversationId := conv.id, role := "user", content := p.text,
            messageType := p.msgType }) ∧
    (∀ (conv : Conversation) st agentId cutoff inactivityThreshold
        cooldownThreshold minMessages maxFollowups maxAttempts maxPerDay,
      conv.optedOut = true ∨ conv.isPaused = true →
      scan_eligible conv st agentId cutoff inactivityThreshold
        cooldownThreshold minMessages maxFollowups maxAttempts maxPerDay = false) ∧
    (∀ (fu : ScheduledFollowup) (env : FollowupEnv) (conv : Conversation),
      env.conv = some conv → env.agentPresent = true → env.userPresent = true →
      conv.optedOut = true ∨ conv.isPaused = true →
      process_single fu env =
        ({ fu with status := FollowupStatus.cancelled }, false)) := by
  refine ⟨?_, ?_, ?_⟩
  · intro conv followups msgs pending now llmResponse hp
    unfold process_batched_messages
    simp [hp]
  · intro conv st agentId cutoff inact cool minM maxF maxA maxP h
    unfold scan_eligible
    rcases h with h | h <;> simp [h]
  · intro fu env conv hconv hagent huser hflag
    unfold process_single
    rw [hconv]
    simp only [hagent, huser, Bool.not_true, Bool.or_self, Bool.false_or]
    have hcond : (conv.optedOut || conv.isPaused || !env.agentIsActive) = true := by
      rcases hflag with h | h <;> simp [h]
    simp [hcond]

/-- C1 amended, witnessed at concrete inputs: a paused conversation's batch
is persisted without an LLM call; a flagged conversation is scan-ineligible
and its pending follow-up row is cancelled unsent. -/
theorem C1_amended_witness :
    ((⟨1, 1, 1, true, false, none⟩ : Conversation).isPaused = true ∧
      (process_batched_messages ⟨1, 1, 1, true, false, none⟩ [] []
          [⟨"היי", "text"⟩] 0 "תשובה").llmInvoked = false) ∧
    scan_eligible ⟨2, 1, 1, false, true, none⟩
      ⟨false, 0, 0, some "assistant", 9, false, none, 0⟩ 1 0 10 0 1 3 6 2 = false ∧
    process_single
        ⟨7, 2, 1, 1, 1, 50, FollowupStatus.evaluating, none, none, none, none, none, 10⟩
        ⟨some ⟨2, 1, 1, false, true, none⟩, true, true, true, "meta", true, [], true, none, 100⟩ =
      ({ id := 7, conversationId := 2, agentId := 1, userId := 1,
         followupNumber := 1, scheduledFor := 50,
         status := FollowupStatus.cancelled, content := none, aiReason := none,
         sentVia := none, templateName := none, sentAt := none,
         createdAt := 10 }, false) := by
  refine ⟨⟨rfl, ?_⟩, ?_, ?_⟩
  · exact (C1_amended.1 ⟨1, 1, 1, true, false, none⟩ [] []
      [⟨"היי", "text"⟩] 0 "תשובה" rfl).1
  · exact C1_amended.2.1 ⟨2, 1, 1, false, true, none⟩
      ⟨false, 0, 0, some "assistant", 9, false, none, 0⟩ 1 0 10 0 1 3 6 2 (Or.inl rfl)
  · exact C1_amended.2.2
      ⟨7, 2, 1, 1, 1, 50, FollowupStatus.evaluating, none, none, none, none, none, 10⟩
      ⟨some ⟨2, 1, 1, false, true, none⟩, true, true, true, "meta", true, [], true, none, 100⟩
      ⟨2, 1, 1, false, true, none⟩ rfl rfl rfl (Or.inl rfl)

theorem process_single_status_terminal (fu : ScheduledFollowup)
    (env : FollowupEnv) :
    (process_single fu env).fst.status = FollowupStatus.sent ∨
    (process_single fu env).fst.status = FollowupStatus.skipped ∨
    (process_single fu env).fst.status = FollowupStatus.cancelled := by
  unfold process_single skip_followup
  cases env.conv with
  | none => simp
  | some conv =>
    dsimp only
    split
    · simp
    split
    · simp
    split
    · simp
    split
    · simp
    split
    · simp
    split <;> simp

/-- C8: every processed follow-up row leaves the `evaluating` state — an
exception during processing yields `skipped` with the truncated error as
reason, and a JSON parse failure on the AI decision is treated as a
`send=false` decision whose reason is the parse error, which also yields
`skipped`. -/
theorem C8_followup_error_handling :
    (∀ (fu : ScheduledFollowup) (env : FollowupEnv) (raises : Option String)
        (fu' : ScheduledFollowup),
      run_followup_task (some fu) env raises = some fu' →
      fu'.status ≠ FollowupStatus.evaluating ∧
      fu'.status ≠ FollowupStatus.pending) ∧
    (∀ (fu : ScheduledFollowup) (env : FollowupEnv) (err : String),
      run_followup_task (some fu) env (some err) =
        some { fu with status := FollowupStatus.skipped,
                       aiReason := some ("error: " ++ py_slice err 200) }) ∧
    (∀ (loads : List Char → Option PyJson) (response : String)
        (fu : ScheduledFollowup) (env : FollowupEnv),
      loads (munge_ai_response response) = none →
      env.decision = parse_ai_decision loads response →
      reaches_ai_decision fu env →
      (process_single fu env).fst.status = FollowupStatus.skipped ∧
      (process_single fu env).fst.aiReason =
        some (py_slice (String.mk ("failed to parse AI response: ".data ++
          (munge_ai_response response).take 80)) 500)) := by
  refine ⟨?_, ?_, ?_⟩
  · intro fu env raises fu' h
    cases raises with
    | some err =>
      simp only [run_followup_task, Option.some_inj] at h
      subst h
      simp
    | none =>
      simp only [run_followup_task, Option.some_inj] at h
      subst h
      rcases process_single_status_terminal fu env with h | h | h <;>
        rw [h] <;> simp
  · intro fu env err
    rfl
  · intro loads response fu env hloads hdec hreach
    obtain ⟨conv, hconv, ha, hu, hopt, hpau, hact, hresp, htmpl⟩ := hreach
    have hdecision : env.decision =
        [("send", PyJson.boolean false),
         ("reason", PyJson.str (String.mk ("failed to parse AI response: ".data ++
           (munge_ai_response response).take 80)))] := by
      rw [hdec]
      unfold parse_ai_decision
      simp only [hloads]
    unfold process_single
    rw [hconv]
    simp only [ha, hu, hopt, hpau, hact, hresp, htmpl, Bool.not_true,
      Bool.or_self, Bool.false_or, Bool.or_false, if_false, ite_false,
      Bool.false_eq_true, if_neg, not_false_iff]
    rw [hdecision]
    simp [pyGetTruthy, pyGet, pyTruthy, pyGetStr, skip_followup]

/-- C8 witnessed at concrete inputs: a row that raises during processing
ends `skipped` with the truncated error, a normally processed row is not
left `evaluating`, and a response that fails JSON parsing ends `skipped`
with the parse error as reason. -/
theorem C8_followup_error_handling_witness :
    (run_followup_task
        (some ⟨3, 2, 1, 1, 1, 50, FollowupStatus.evaluating, none, none, none,
               none, none, 10⟩)
        ⟨some ⟨2, 1, 1, false, false, none⟩, true, true, true, "wasender",
         false, [], true, none, 100⟩ (some "boom") =
      some { id := 3, conversationId := 2, agentId := 1, userId := 1,
             followupNumber := 1, scheduledFor := 50,
             status := FollowupStatus.skipped, content := none,
             aiReason := some ("error: " ++ py_slice "boom" 200),
             sentVia := none, templateName := none, sentAt := none,
             createdAt := 10 }) ∧
    ((process_single
        ⟨3, 2, 1, 1, 1, 50, FollowupStatus.evaluating, none, none, none,
         none, none, 10⟩
        ⟨some ⟨2, 1, 1, false, false, none⟩, true, true, true, "wasender",
         false, parse_ai_decision (fun _ => none) "not json", true, none,
         100⟩).fst.status ≠ FollowupStatus.evaluating) ∧
    ((process_single
        ⟨3, 2, 1, 1, 1, 50, FollowupStatus.evaluating, none, none, none,
         none, none, 10⟩
        ⟨some ⟨2, 1, 1, false, false, none⟩, true, true, true, "wasender",
         false, parse_ai_decision (fun _ => none) "not json", true, none,
         100⟩).fst.status = FollowupStatus.skipped ∧
      (process_single
        ⟨3, 2, 1, 1, 1, 50, FollowupStatus.evaluating, none, none, none,
         none, none, 10⟩
        ⟨some ⟨2, 1, 1, false, false, none⟩, true, true, true, "wasender",
         false, parse_ai_decision (fun _ => none) "not json", true, none,
         100⟩).fst.aiReason =
        some (py_slice (String.mk ("failed to parse AI response: ".data ++
          (munge_ai_response "not json").take 80)) 500)) := by
  refine ⟨?_, ?_, ?_⟩
  · exact C8_followup_error_handling.2.1
      ⟨3, 2, 1, 1, 1, 50, FollowupStatus.evaluating, none, none, none,
       none, none, 10⟩
      ⟨some ⟨2, 1, 1, false, false, none⟩, true, true, true, "wasender",
       false, [], true, none, 100⟩ "boom"
  · exact (C8_followup_error_handling.1
      ⟨3, 2, 1, 1, 1, 50, FollowupStatus.evaluating, none, none, none,
       none, none, 10⟩
      ⟨some ⟨2, 1, 1, false, false, none⟩, true, true, true, "wasender",
       false, parse_ai_decision (fun _ => none) "not json", true, none,
       100⟩ none _ rfl).1
  · exact C8_followup_error_handling.2.2 (fun _ => none) "not json"
      ⟨3, 2, 1, 1, 1, 50, FollowupStatus.evaluating, none, none, none,
       none, none, 10⟩
      ⟨some ⟨2, 1, 1, false, false, none⟩, true, true, true, "wasender",
       false, parse_ai_decision (fun _ => none) "not json", true, none,
       100⟩ rfl rfl
      ⟨⟨2, 1, 1, false, false, none⟩, rfl, rfl, rfl, rfl, rfl, rfl, rfl, rfl⟩

/-- C9: the active-hours clamp.  For the cross-midnight window
`10:00-04:00` (Asia/Jerusalem winter offset +120), a local time of 02:00 is
in-window and passes through unchanged, and a local time of 05:00 is
out-of-window and moves to 10:00 of the same local day.  In general,
out-of-window times move to the window start of the same local day when
before it and to the next day's window start otherwise. -/
theorem C9_active_hours_clamp :
    (in_active_window 10 0 4 0 (1440 + 120) = true ∧
      clamp_to_active_hours 120 10 0 4 0 1440 = 1440) ∧
    (in_active_window 10 0 4 0 (1620 + 120) = false ∧
      clamp_to_active_hours 120 10 0 4 0 1620 = 1920 ∧
      1920 + 120 = window_start 10 0 (1620 + 120)) ∧
    (∀ off startH startM endH endM dt,
      (in_active_window startH startM endH endM (dt + off) = true →
        clamp_to_active_hours off startH startM endH endM dt = dt) ∧
      (in_active_window startH startM endH endM (dt + off) = false →
        dt + off < window_start startH startM (dt + off) →
        clamp_to_active_hours off startH startM endH endM dt =
          window_start startH startM (dt + off) - off) ∧
      (in_active_window startH startM endH endM (dt + off) = false →
        window_start startH startM (dt + off) ≤ dt + off →
        clamp_to_active_hours off startH startM endH endM dt =
          window_start startH startM (dt + off) + 1440 - off)) := by
  refine ⟨⟨by decide, by decide⟩, ⟨by decide, by decide, by decide⟩, ?_⟩
  intro off startH startM endH endM dt
  refine ⟨?_, ?_, ?_⟩
  · intro h
    unfold clamp_to_active_hours
    simp [h]
  · intro h hlt
    unfold clamp_to_active_hours
    simp [h, hlt]
  · intro h hge
    unfold clamp_to_active_hours
    simp [h, not_lt.mpr hge]

/-- C9 witnessed on the default `09:00-21:00` window: 07:00 local is pushed
to 09:00 of the same day and 23:40 local to 09:00 of the next day. -/
theorem C9_active_hours_clamp_witness :
    clamp_to_active_hours 120 9 0 21 0 300 = 420 ∧
    clamp_to_active_hours 120 9 0 21 0 1300 = 1860 := by
  constructor
  · have h := (C9_active_hours_clamp.2.2 120 9 0 21 0 300).2.1
      (by decide) (by decide)
    rw [h]; decide
  · have h := (C9_active_hours_clamp.2.2 120 9 0 21 0 1300).2.2
      (by decide) (by decide)
    rw [h]; decide

theorem foldl_min_sel (k : KeyState) (ks : List KeyState) :
    ks.foldl (fun acc x => if x.availableAt < acc.availableAt then x else acc) k = k ∨
    ks.foldl (fun acc x => if x.availableAt < acc.availableAt then x else acc) k ∈ ks := by
  induction ks generalizing k with
  | nil => left; rfl
  | cons x xs ih =>
    simp only [List.foldl_cons]
    rcases ih (if x.availableAt < k.availableAt then x else k) with h | h
    · by_cases hx : x.availableAt < k.availableAt
      · right
        rw [h, if_pos hx]
        exact List.mem_cons_self _ _
      · left
        rw [h, if_neg hx]
    · right
      exact List.mem_cons_of_mem _ h

theorem foldl_min_le (k : KeyState) (ks : List KeyState) :
    (ks.foldl (fun acc x => if x.availableAt < acc.availableAt then x else acc) k).availableAt ≤ k.availableAt ∧
    ∀ x ∈ ks,
      (ks.foldl (fun acc x => if x.availableAt < acc.availableAt then x else acc) k).availableAt ≤ x.availableAt := by
  induction ks generalizing k with
  | nil => simp
  | cons x xs ih =>
    simp only [List.foldl_cons, List.mem_cons]
    have h := ih (if x.availableAt < k.availableAt then x else k)
    have hfk : (if x.availableAt < k.availableAt then x else k).availableAt ≤ k.availableAt ∧
        (if x.availableAt < k.availableAt then x else k).availableAt ≤ x.availableAt := by
      by_cases hx : x.availableAt < k.availableAt
      · rw [if_pos hx]; exact ⟨le_of_lt hx, le_refl _⟩
      · rw [if_neg hx]; exact ⟨le_refl _, le_of_not_lt hx⟩
    refine ⟨le_trans h.1 hfk.1, ?_⟩
    intro y hy
    rcases hy with hy | hy
    · rw [hy]; exact le_trans h.1 hfk.2
    · exact h.2 y hy

theorem min_non_dead_spec (pool : List KeyState) (m : KeyState)
    (hm : min_non_dead pool = some m) :
    m ∈ pool ∧ m.dead = false ∧
    ∀ x ∈ pool, x.dead = false → m.availableAt ≤ x.availableAt := by
  unfold min_non_dead at hm
  cases hf : pool.filter (fun ks => !ks.dead) with
  | nil => rw [hf] at hm; simp at hm
  | cons k ks =>
    rw [hf] at hm
    simp only [Option.some_inj] at hm
    have hmem_filter : m ∈ pool.filter (fun ks => !ks.dead) := by
      rw [hf]
      rcases foldl_min_sel k ks with h | h
      · rw [← hm, h]
        exact List.mem_cons_self _ _
      · rw [← hm]
        exact List.mem_cons_of_mem _ h
    have hmp := List.mem_filter.mp hmem_filter
    refine ⟨hmp.1, by simpa using hmp.2, ?_⟩
    intro x hx hxd
    have hxf : x ∈ pool.filter (fun ks => !ks.dead) :=
      List.mem_filter.mpr ⟨hx, by simp [hxd]⟩
    rw [hf] at hxf
    rcases List.mem_cons.mp hxf with hxk | hxk
    · rw [← hm, hxk]
      exact (foldl_min_le k ks).1
    · rw [← hm]
      exact (foldl_min_le k ks).2 x hxk

theorem min_non_dead_isSome (pool : List KeyState)
    (hex : ∃ ks ∈ pool, ks.dead = false) :
    ∃ m, min_non_dead pool = some m := by
  obtain ⟨ks, hmem, hnd⟩ := hex
  have hksf : ks ∈ pool.filter (fun ks => !ks.dead) :=
    List.mem_filter.mpr ⟨hmem, by simp [hnd]⟩
  unfold min_non_dead
  cases hf : pool.filter (fun ks => !ks.dead) with
  | nil => rw [hf] at hksf; simp at hksf
  | cons k kt => exact ⟨_, rfl⟩

theorem round_robin_find_eq_none (pool : List KeyState) (start : Nat)
    (now : Int) (h : ∀ ks ∈ pool, key_is_available now ks = false) :
    round_robin_find pool start now = none := by
  unfold round_robin_find
  rw [List.findSome?_eq_none_iff]
  intro i _
  cases hget : pool.get? ((start + i) % pool.length) with
  | none => simp
  | some ks =>
    have hmem := List.get?_mem hget
    simp [h ks hmem]

theorem get_key_ok_of_nondead (provider : String) (pool : List KeyState)
    (counter : Nat) (now : Int) (hex : ∃ ks ∈ pool, ks.dead = false) :
    ∃ k c, get_key provider pool counter now none = Except.ok (k, c) := by
  have hne : pool.isEmpty = false := by
    obtain ⟨ks, hm, _⟩ := hex
    cases pool
    · simp at hm
    · simp
  unfold get_key
  rw [hne]
  cases hr : round_robin_find pool (counter % pool.length) now with
  | some p =>
    exact ⟨p.2.key, p.1 + 1, by simp⟩
  | none =>
    obtain ⟨m, hm⟩ := min_non_dead_isSome pool hex
    exact ⟨m.key, counter, by simp [hm]⟩

/-- C10: whenever the pool holds at least one non-dead key, `get_key` (with
no agent override) returns a key; when every key is on cooldown it
immediately returns the non-dead key with the smallest `available_at`
(leaving the round-robin counter untouched) instead of waiting or raising;
and it raises only when the pool is empty or every key is dead. -/
theorem C10_get_key_pool (provider : String) (pool : List KeyState)
    (counter : Nat) (now : Int) :
    ((∃ ks ∈ pool, ks.dead = false) →
      ∃ k c, get_key provider pool counter now none = Except.ok (k, c)) ∧
    ((∀ ks ∈ pool, key_is_available now ks = false) →
      (∃ ks ∈ pool, ks.dead = false) →
      ∃ ks, ks ∈ pool ∧ ks.dead = false ∧
        get_key provider pool counter now none = Except.ok (ks.key, counter) ∧
        ∀ ks' ∈ pool, ks'.dead = false → ks.availableAt ≤ ks'.availableAt) ∧
    (∀ e, get_key provider pool counter now none = Except.error e →
      pool = [] ∨ ∀ ks ∈ pool, ks.dead = true) := by
  refine ⟨get_key_ok_of_nondead provider pool counter now, ?_, ?_⟩
  · intro hall hex
    have hr := round_robin_find_eq_none pool (counter % pool.length) now hall
    obtain ⟨m, hm⟩ := min_non_dead_isSome pool hex
    obtain ⟨hmem, hnd, hmin⟩ := min_non_dead_spec pool m hm
    have hne : pool.isEmpty = false := by
      cases pool
      · obtain ⟨ks, h, _⟩ := hex; simp at h
      · simp
    refine ⟨m, hmem, hnd, ?_, hmin⟩
    unfold get_key
    rw [hne, hr, hm]
    rfl
  · intro e herr
    by_cases hp : pool = []
    · exact Or.inl hp
    · right
      intro ks hks
      by_contra hnd
      obtain ⟨k, c, hok⟩ := get_key_ok_of_nondead provider pool counter now
        ⟨ks, hks, by simpa using hnd⟩
      rw [hok] at herr
      exact Except.noConfusion herr

/-- C10 witnessed: a two-key pool where both keys are cooling returns the
key with the earliest `available_at` without raising, and a pool with one
non-dead key succeeds. -/
theorem C10_get_key_pool_witness :
    (∃ ks, ks ∈ [(⟨"k1", 100, false⟩ : KeyState), ⟨"k2", 60, false⟩] ∧
      ks.dead = false ∧
      get_key "anthropic" [⟨"k1", 100, false⟩, ⟨"k2", 60, false⟩] 0 50 none =
        Except.ok (ks.key, 0) ∧
      ∀ ks' ∈ [(⟨"k1", 100, false⟩ : KeyState), ⟨"k2", 60, false⟩],
        ks'.dead = false → ks.availableAt ≤ ks'.availableAt) ∧
    (∃ k c, get_key "openai" [(⟨"k1", 100, true⟩ : KeyState), ⟨"k2", 60, false⟩]
        0 50 none = Except.ok (k, c)) := by
  constructor
  · exact (C10_get_key_pool "anthropic" [⟨"k1", 100, false⟩, ⟨"k2", 60, false⟩]
      0 50).2.1 (by decide) ⟨⟨"k2", 60, false⟩, by decide, rfl⟩
  · exact (C10_get_key_pool "openai" [⟨"k1", 100, true⟩, ⟨"k2", 60, false⟩]
      0 50).1 ⟨⟨"k2", 60, false⟩, by decide, rfl⟩

/-- C2: `create_and_send_summary` preserves the uniqueness invariant on
`(conversation_id, last_message_at)`, and when the insert would violate the
unique constraint (a peer committed the same key first) the operation
leaves the table unchanged and returns `null` without raising. -/
theorem C2_summary_unique_insert (rows concurrent : List ConversationSummaryRow)
    (conversationId agentId userId : Int) (lastUserMsgTime : Option Int)
    (conversationText : String) (aiSummary : Option String)
    (messageCount : Int) (now retryDelay : Int)
    (huniq : summary_unique (rows ++ concurrent)) :
    summary_unique (create_and_send_summary rows concurrent conversationId
      agentId userId lastUserMsgTime conversationText aiSummary messageCount
      now retryDelay).fst ∧
    (summary_key_conflict (rows ++ concurrent) conversationId lastUserMsgTime = true →
      create_and_send_summary rows concurrent conversationId agentId userId
        lastUserMsgTime conversationText aiSummary messageCount now retryDelay =
        (rows ++ concurrent, none)) := by
  unfold create_and_send_summary
  dsimp only
  split
  · exact ⟨huniq, fun _ => rfl⟩
  · split
    · exact ⟨huniq, fun _ => rfl⟩
    · cases aiSummary with
      | none => exact ⟨huniq, fun _ => rfl⟩
      | some summaryText =>
        dsimp only
        split
        · exact ⟨huniq, fun _ => rfl⟩
        · rename_i hpre htext hnoconf
          constructor
          · rw [summary_unique, List.pairwise_append]
            refine ⟨huniq, List.pairwise_singleton _ _, ?_⟩
            intro a ha b hb
            rw [List.mem_singleton] at hb
            subst hb
            intro hcid hlma
            cases hl : lastUserMsgTime with
            | none => simpa [hl] using hlma
            | some t =>
              exfalso
              rw [hl] at hnoconf
              have hany : ((rows ++ concurrent).any fun r =>
                  r.conversationId == conversationId && r.lastMessageAt == some t) = false := by
                simpa [summary_key_conflict] using hnoconf
              rw [List.any_eq_false] at hany
              have := hany a ha
              simp only [Bool.and_eq_true, beq_iff_eq] at this
              exact this ⟨by simpa using hcid, by rw [hlma, hl]⟩
          · intro hconf
            rw [hconf] at hnoconf
            exact absurd rfl hnoconf

/-- C2 witnessed: with a peer-inserted row for `(conversation 1, t = 5)`
already committed, the same insert attempt returns `null` and leaves the
single existing row as the only one, and the uniqueness invariant holds
afterwards. -/
theorem C2_summary_unique_insert_witness :
    summary_unique ((create_and_send_summary []
      [⟨1, 1, 1, "peer", 4, some 5, SummaryWebhookStatus.sent, 1, none⟩]
      1 1 1 (some 5) "text" (some "summary") 4 0 60).fst) ∧
    create_and_send_summary []
      [⟨1, 1, 1, "peer", 4, some 5, SummaryWebhookStatus.sent, 1, none⟩]
      1 1 1 (some 5) "text" (some "summary") 4 0 60 =
      ([⟨1, 1, 1, "peer", 4, some 5, SummaryWebhookStatus.sent, 1, none⟩], none) := by
  have h := C2_summary_unique_insert []
    [⟨1, 1, 1, "peer", 4, some 5, SummaryWebhookStatus.sent, 1, none⟩]
    1 1 1 (some 5) "text" (some "summary") 4 0 60 (by decide)
  exact ⟨h.1, h.2 (by decide)⟩

/-- C4: when adding a message makes the buffered list reach `max_batch`
(and the drain gate is free), the whole list is drained in arrival order,
`on_flush` receives exactly that one batch, and no debounce timer is
started; and `debounce_seconds == 0` processes the message synchronously
without entering the buffer. -/
theorem C4_batcher_flush (buffer : List PendingMessage)
    (msg : PendingMessage) (maxMessages : Nat) (debounceSeconds : Nat) :
    (maxMessages ≤ buffer.length + 1 →
      add_message buffer msg maxMessages true =
        { buffer := [], flushed := some (buffer ++ [msg]),
          timerStarted := false }) ∧
    (¬ maxMessages ≤ buffer.length + 1 →
      add_message buffer msg maxMessages true =
        { buffer := buffer ++ [msg], flushed := none, timerStarted := true }) ∧
    handle_incoming 0 maxMessages buffer msg true =
      { buffer := buffer, flushed := some [msg], timerStarted := false } ∧
    (debounceSeconds ≠ 0 →
      handle_incoming debounceSeconds maxMessages buffer msg true =
        add_message buffer msg maxMessages true) := by
  refine ⟨?_, ?_, rfl, ?_⟩
  · intro h
    unfold add_message process_redis_buffer
    have hlen : maxMessages ≤ (buffer ++ [msg]).length := by
      simpa using h
    have hne : (buffer ++ [msg]).isEmpty = false := by
      cases buffer <;> simp
    simp [hlen, hne]
    omega
  · intro h
    unfold add_message
    have hlen : ¬ maxMessages ≤ (buffer ++ [msg]).length := by
      simpa using h
    simp [hlen]
    omega
  · intro h
    unfold handle_incoming
    simp [h]

/-- C4 witnessed: a two-message buffer with `max_batch = 3` flushes on the
third add with all three messages in arrival order, and a zero debounce
flushes the single message directly. -/
theorem C4_batcher_flush_witness :
    add_message [⟨"a", "text"⟩, ⟨"b", "text"⟩] ⟨"c", "text"⟩ 3 true =
      { buffer := [],
        flushed := some [⟨"a", "text"⟩, ⟨"b", "text"⟩, ⟨"c", "text"⟩],
        timerStarted := false } ∧
    handle_incoming 0 10 [⟨"a", "text"⟩] ⟨"b", "text"⟩ true =
      { buffer := [⟨"a", "text"⟩], flushed := some [⟨"b", "text"⟩],
        timerStarted := false } := by
  exact ⟨(C4_batcher_flush [⟨"a", "text"⟩, ⟨"b", "text"⟩] ⟨"c", "text"⟩ 3 0).1
      (by decide),
    (C4_batcher_flush [⟨"a", "text"⟩] ⟨"b", "text"⟩ 10 0).2.2.1⟩

/-- C5: the `book_appointment` tool rejects a start datetime at or before
the current time and a duration outside [5, 480] minutes with failure
strings, and a request overlapping a `scheduled` appointment of the same
agent on `[start, end)` creates nothing and returns the Hebrew conflict
string. -/
theorem C5_book_appointment_validation (dtStr : String) (dt : Int)
    (durationMinutes : Int) (title description : String) (now : Int)
    (agentId userId : Int) (appts : List Appointment) (newId : Int)
    (accessTokenOk : Bool) (calendarEventId : Option String)
    (insertOk : Bool) (remindersEnabled : Bool) (rules : List ReminderRule) :
    (dt ≤ now →
      handle_book_appointment true dtStr (some dt) durationMinutes title
        description now agentId userId appts newId accessTokenOk
        calendarEventId insertOk remindersEnabled rules =
        { reply := "לא ניתן לקבוע פגישה בעבר", appts := appts,
          booked := none }) ∧
    (now < dt → durationMinutes < 5 ∨ 480 < durationMinutes →
      handle_book_appointment true dtStr (some dt) durationMinutes title
        description now agentId userId appts newId accessTokenOk
        calendarEventId insertOk remindersEnabled rules =
        { reply := "משך פגישה לא תקין (מינימום 5 דקות, מקסימום 8 שעות)",
          appts := appts, booked := none }) ∧
    (now < dt → 5 ≤ durationMinutes → durationMinutes ≤ 480 →
      (∃ a ∈ appts, a.agentId = agentId ∧
        a.status = AppointmentStatus.scheduled ∧
        a.startTime < dt + durationMinutes ∧ dt < a.endTime) →
      handle_book_appointment true dtStr (some dt) durationMinutes title
        description now agentId userId appts newId accessTokenOk
        calendarEventId insertOk remindersEnabled rules =
        { reply := "לא הצלחתי לקבוע פגישה - ייתכן שהזמן תפוס",
          appts := appts, booked := none }) := by
  refine ⟨?_, ?_, ?_⟩
  · intro h
    unfold handle_book_appointment
    simp [h]
  · intro h1 h2
    unfold handle_book_appointment
    dsimp only
    rw [if_neg (not_le.mpr h1)]
    rw [if_pos (show (decide (durationMinutes < 5) ||
        decide (480 < durationMinutes)) = true by
      rcases h2 with h2 | h2 <;> simp [h2])]
    rfl
  · intro h1 h4 h5 hconf
    have hany : (appts.any fun a =>
        a.agentId == agentId && a.status == AppointmentStatus.scheduled &&
        a.startTime < dt + durationMinutes && dt < a.endTime) = true := by
      rw [List.any_eq_true]
      obtain ⟨a, ha, e1, e2, e3, e4⟩ := hconf
      exact ⟨a, ha, by simp [e1, e2, e3, e4]⟩
    unfold handle_book_appointment
    dsimp only
    rw [if_neg (not_le.mpr h1)]
    rw [if_neg (show ¬ (decide (durationMinutes < 5) ||
        decide (480 < durationMinutes)) = true by simp; omega)]
    unfold book_appointment
    dsimp only
    simp only [hany]
    rfl

/-- C5 witnessed: booking at exactly `now` is rejected, a 500-minute
duration is rejected, and a request overlapping an existing scheduled
appointment is rejected with the conflict string. -/
theorem C5_book_appointment_validation_witness :
    (handle_book_appointment true "2026-01-01 10:00" (some 100) 30 "t" ""
        100 1 1 [] 5 true none true false [] =
      { reply := "לא ניתן לקבוע פגישה בעבר", appts := [], booked := none }) ∧
    (handle_book_appointment true "2026-01-01 10:00" (some 200) 500 "t" ""
        100 1 1 [] 5 true none true false [] =
      { reply := "משך פגישה לא תקין (מינימום 5 דקות, מקסימום 8 שעות)",
        appts := [], booked := none }) ∧
    (handle_book_appointment true "2026-01-01 10:00" (some 200) 30 "t" ""
        100 1 1 [⟨9, 1, 2, none, 210, 240, "busy", "", AppointmentStatus.scheduled⟩]
        5 true none true false [] =
      { reply := "לא הצלחתי לקבוע פגישה - ייתכן שהזמן תפוס",
        appts := [⟨9, 1, 2, none, 210, 240, "busy", "", AppointmentStatus.scheduled⟩],
        booked := none }) := by
  refine ⟨?_, ?_, ?_⟩
  · exact (C5_book_appointment_validation "2026-01-01 10:00" 100 30 "t" ""
      100 1 1 [] 5 true none true false []).1 (by decide)
  · exact (C5_book_appointment_validation "2026-01-01 10:00" 200 500 "t" ""
      100 1 1 [] 5 true none true false []).2.1 (by decide) (by decide)
  · exact (C5_book_appointment_validation "2026-01-01 10:00" 200 30 "t" ""
      100 1 1 [⟨9, 1, 2, none, 210, 240, "busy", "", AppointmentStatus.scheduled⟩]
      5 true none true false []).2.2 (by decide) (by decide) (by decide)
      ⟨⟨9, 1, 2, none, 210, 240, "busy", "", AppointmentStatus.scheduled⟩,
        by decide, rfl, rfl, by decide, by decide⟩

/-- C6 counterexample: on a successful conflict-free booking the code fires
the `appointment.created` webhook (appointments.py line 293) before
materializing the reminders (line 297), so the claimed step order
"calendar event, insert, reminders, webhook" does not match the code. -/
theorem C6_counterexample :
    (book_appointment [] 1 1 100 30 "פגישה" "" 5 true (some "ev") true true
      [⟨some 30, ReminderContentType.template, none, none⟩] 0).trace ≠
    [BookStep.externalCalendarEvent, BookStep.localInsert,
     BookStep.remindersCreated, BookStep.webhookFired] := by
  decide

/-- C6 amended: for every successful conflict-free booking with a calendar
token, `book_appointment` performs the external-calendar event (best
effort), then the local insert, then fires the `appointment.created`
webhook, and only then materializes the scheduled reminders. -/
theorem C6_amended (appts : List Appointment) (agentId userId : Int)
    (startTime durationMinutes : Int) (title description : String)
    (newId : Int) (calendarEventId : Option String)
    (remindersEnabled : Bool) (rules : List ReminderRule) (now : Int)
    (hnoconf : (appts.any fun a =>
      a.agentId == agentId && a.status == AppointmentStatus.scheduled &&
      a.startTime < startTime + durationMinutes &&
      startTime < a.endTime) = false) :
    (book_appointment appts agentId userId startTime durationMinutes title
      description newId true calendarEventId true remindersEnabled rules
      now).trace =
      [BookStep.externalCalendarEvent, BookStep.localInsert,
       BookStep.webhookFired, BookStep.remindersCreated] ∧
    ∃ apt,
      (book_appointment appts agentId userId startTime durationMinutes title
        description newId true calendarEventId true remindersEnabled rules
        now).appointment = some apt ∧
      (book_appointment appts agentId userId startTime durationMinutes title
        description newId true calendarEventId true remindersEnabled rules
        now).appts = appts ++ [apt] ∧
      (book_appointment appts agentId userId startTime durationMinutes title
        description newId true calendarEventId true remindersEnabled rules
        now).reminders = create_reminders_for_appointment remindersEnabled
          rules newId agentId userId startTime now := by
  unfold book_appointment
  simp only [hnoconf]
  exact ⟨rfl, _, rfl, rfl, rfl⟩

/-- C6 amended, witnessed on a concrete conflict-free booking. -/
theorem C6_amended_witness :
    (book_appointment [] 1 1 100 30 "פגישה" "" 5 true (some "ev") true true
      [⟨some 30, ReminderContentType.template, none, none⟩] 0).trace =
      [BookStep.externalCalendarEvent, BookStep.localInsert,
       BookStep.webhookFired, BookStep.remindersCreated] := by
  exact (C6_amended [] 1 1 100 30 "פגישה" "" 5 (some "ev") true
    [⟨some 30, ReminderContentType.template, none, none⟩] 0 (by decide)).1

/-- C7 counterexample: `create_reminders_for_appointment` has no
`minutes_before > 0` filter — a rule with `minutes_before = 0` whose
computed time (the appointment start itself) lies in the future still
produces a `ScheduledReminder` row, contradicting the claim that rows are
created exactly for rules with positive `minutes_before`. -/
theorem C7_counterexample :
    (⟨some 0, ReminderContentType.template, none, none⟩ : ReminderRule).minutesBefore.getD 60 = 0 ∧
    create_reminders_for_appointment true
      [⟨some 0, ReminderContentType.template, none, none⟩] 1 1 1 60 0 =
      [reminder_row 0 ⟨some 0, ReminderContentType.template, none, none⟩
        1 1 1 60] := by
  exact ⟨rfl, rfl⟩

theorem create_reminders_enabled_eq_loop (rules : List ReminderRule)
    (appointmentId agentId userId startTime now : Int) :
    create_reminders_for_appointment true rules appointmentId agentId userId
      startTime now =
    create_reminders_loop 0 rules appointmentId agentId userId startTime now := by
  unfold create_reminders_for_appointment
  cases rules <;> simp [create_reminders_loop]

theorem create_reminders_loop_mem (rules : List ReminderRule) (idx : Nat)
    (appointmentId agentId userId startTime now : Int) (r : ScheduledReminder) :
    r ∈ create_reminders_loop idx rules appointmentId agentId userId
        startTime now ↔
    ∃ j rule, rules.get? j = some rule ∧
      now < startTime - rule.minutesBefore.getD 60 ∧
      r = reminder_row (idx + j) rule appointmentId agentId userId startTime := by
  induction rules generalizing idx with
  | nil => simp [create_reminders_loop]
  | cons rule rest ih =>
    unfold create_reminders_loop
    dsimp only
    split
    · rename_i hle
      rw [ih]
      constructor
      · rintro ⟨j, rl, hj, hlt, hr⟩
        refine ⟨j + 1, rl, by simpa using hj, hlt, ?_⟩
        rw [hr]
        congr 1
        omega
      · rintro ⟨j, rl, hj, hlt, hr⟩
        cases j with
        | zero =>
          simp only [List.get?_cons_zero, Option.some_inj] at hj
          subst hj
          omega
        | succ j =>
          simp only [List.get?_cons_succ] at hj
          refine ⟨j, rl, hj, hlt, ?_⟩
          rw [hr]
          congr 1
          omega
    · rename_i hgt
      simp only [List.mem_cons]
      rw [ih]
      constructor
      · rintro (hr | ⟨j, rl, hj, hlt, hr⟩)
        · refine ⟨0, rule, rfl, by omega, ?_⟩
          rw [hr]
          congr 1
        · refine ⟨j + 1, rl, by simpa using hj, hlt, ?_⟩
          rw [hr]
          congr 1
          omega
      · rintro ⟨j, rl, hj, hlt, hr⟩
        cases j with
        | zero =>
          left
          simp only [List.get?_cons_zero, Option.some_inj] at hj
          subst hj
          rw [hr]
          congr 1
        | succ j =>
          right
          simp only [List.get?_cons_succ] at hj
          refine ⟨j, rl, hj, hlt, ?_⟩
          rw [hr]
          congr 1
          omega

/-- C7 amended: on booking, a `ScheduledReminder` is created exactly for
each reminder rule whose computed time `start_time − minutes_before`
(default 60 when the key is absent) has not yet passed, regardless of the
sign of `minutes_before`; each created row is `pending` with
`scheduled_for` equal to that computed time. -/
theorem C7_amended (rules : List ReminderRule)
    (appointmentId agentId userId startTime now : Int) :
    (∀ r ∈ create_reminders_for_appointment true rules appointmentId agentId
        userId startTime now,
      r.status = ReminderStatus.pending ∧ now < r.scheduledFor) ∧
    (∀ i rule, rules.get? i = some rule →
      (now < startTime - rule.minutesBefore.getD 60 ↔
        ∃ r ∈ create_reminders_for_appointment true rules appointmentId
            agentId userId startTime now,
          r.ruleIndex = Int.ofNat i ∧
          r.scheduledFor = startTime - rule.minutesBefore.getD 60)) := by
  rw [create_reminders_enabled_eq_loop]
  constructor
  · intro r hr
    rw [create_reminders_loop_mem] at hr
    obtain ⟨j, rl, hj, hlt, hr⟩ := hr
    subst hr
    exact ⟨rfl, hlt⟩
  · intro i rule hi
    constructor
    · intro hlt
      refine ⟨reminder_row (0 + i) rule appointmentId agentId userId startTime,
        ?_, ?_, rfl⟩
      · rw [create_reminders_loop_mem]
        exact ⟨i, rule, hi, hlt, rfl⟩
      · simp [reminder_row]
    · rintro ⟨r, hr, hidx, hsf⟩
      rw [create_reminders_loop_mem] at hr
      obtain ⟨j, rl, hj, hlt, hr⟩ := hr
      rw [← hsf, hr]
      exact hlt

/-- C7 amended, witnessed: of two rules — one with `minutes_before = 0`
(computed time in the future) and one whose computed time has passed —
exactly the first produces a row. -/
theorem C7_amended_witness :
    ((create_reminders_for_appointment true
        [⟨some 0, ReminderContentType.template, none, none⟩,
         ⟨some 120, ReminderContentType.template, none, none⟩] 1 1 1 60 0).length = 1) ∧
    (0 < (60 : Int) - (0 : Int) ↔
      ∃ r ∈ create_reminders_for_appointment true
          [⟨some 0, ReminderContentType.template, none, none⟩,
           ⟨some 120, ReminderContentType.template, none, none⟩] 1 1 1 60 0,
        r.ruleIndex = Int.ofNat 0 ∧ r.scheduledFor = 60 - 0) ∧
    ¬ (0 < (60 : Int) - 120) := by
  refine ⟨by decide, ?_, by decide⟩
  have h := (C7_amended
    [⟨some 0, ReminderContentType.template, none, none⟩,
     ⟨some 120, ReminderContentType.template, none, none⟩] 1 1 1 60 0).2
    0 ⟨some 0, ReminderContentType.template, none, none⟩ rfl
  simpa using h
